import Mathlib

/-!
Shallow embedding of syzkaller's `pkg/build/linux.go` (package `build`):
the kernel build pipeline (`Build`), the clean entry point (`Clean`),
the image assembly pipeline (`CreateImage`) and the root-cause extractor
(`extractRootCause` over the `buildFailureCauses` table).

Bytes are modelled as `Nat`, byte slices as `List Nat`, Go errors as the
inductive `GoError` (either a plain error message or an
`osutil.VerboseError` carrying a title and captured output).  The
side-effecting pipelines are modelled as functions from an explicit
"world" (the predetermined outcome of every external step) to the list of
side effects performed, in order, together with the returned error.
-/

/-- ASCII bytes of a string literal, used to transcribe the Go byte-slice
literals such as `[]byte(": error: ")`. -/
def strBytes (s : String) : List Nat :=
  s.toList.map Char.toNat

/-- Decode a byte slice back to a string, as Go's `string(cause)` does in
`extractRootCause`. -/
def bytesToString (bs : List Nat) : String :=
  String.mk (bs.map Char.ofNat)

/-- Go `bytes.HasPrefix`: `pat` is an initial segment of `s`. -/
def hasPrefixB : List Nat → List Nat → Bool
  | _, [] => true
  | [], _ :: _ => false
  | x :: xs, y :: ys => x == y && hasPrefixB xs ys

/-- Go `bytes.Contains(s, pat)`: `pat` occurs contiguously inside `s`. -/
def containsB : List Nat → List Nat → Bool
  | [], pat => pat.isEmpty
  | x :: xs, pat => hasPrefixB (x :: xs) pat || containsB xs pat

/-- Go `bytes.Split(s, []byte{'\n'})`: split on the newline byte (10);
the result always has one more piece than there are newline bytes. -/
def splitNL : List Nat → List (List Nat)
  | [] => [[]]
  | b :: rest =>
    if b = 10 then [] :: splitNL rest
    else
      match splitNL rest with
      | [] => [[b]]
      | l :: ls => (b :: l) :: ls

/-- An entry of the diagnostic pattern table, Go's `buildFailureCause`
struct: a byte pattern and whether it is weak. -/
structure buildFailureCause where
  pattern : List Nat
  weak : Bool
deriving DecidableEq, Repr

/-- The fixed ordered table `buildFailureCauses` from the source: three
strong entries followed by two weak ones. -/
def buildFailureCauses : List buildFailureCause :=
  [ ⟨strBytes ": error: ", false⟩,
    ⟨strBytes ": fatal error: ", false⟩,
    ⟨strBytes ": undefined reference to", false⟩,
    ⟨strBytes ": final link failed: ", true⟩,
    ⟨strBytes "collect2: error: ", true⟩ ]

/-- The inner loop of `extractRootCause` for one line: walk the pattern
table in order; a weak entry is skipped when a candidate is already set;
the first applicable entry contained in the line sets the candidate to
the line and stops (`break`). -/
def scanLine (cause : Option (List Nat)) (line : List Nat) :
    List buildFailureCause → Option (List Nat)
  | [] => cause
  | p :: ps =>
    if p.weak && cause.isSome then scanLine cause line ps
    else if containsB line p.pattern then some line
    else scanLine cause line ps

/-- One step of the outer loop of `extractRootCause`: process one line of
output against the whole table. -/
def scanStep (cause : Option (List Nat)) (line : List Nat) : Option (List Nat) :=
  scanLine cause line buildFailureCauses

/-- The whole scan of `extractRootCause`: fold the per-line step over the
lines of the output, starting from no candidate (`var cause []byte`). -/
def extractCause (output : List Nat) : Option (List Nat) :=
  List.foldl scanStep none (splitNL output)

/-- A Go `error` value as used by this file: either a plain error with a
message, or an `*osutil.VerboseError` carrying a `Title` and the captured
`Output` bytes. -/
inductive GoError where
  | simple (msg : String)
  | verbose (title : String) (output : List Nat)
deriving DecidableEq, Repr

/-- The captured output of an error: present exactly for the verbose
kind. -/
def GoError.outputOf : GoError → Option (List Nat)
  | .simple _ => none
  | .verbose _ o => some o

/-- Modelled from the spec: the message of an error as rendered by `%v`
(the `Error()` method of `osutil.VerboseError` lives outside `src/`); a
verbose error renders via its title. No claim depends on this rendering. -/
def GoError.message : GoError → String
  | .simple m => m
  | .verbose t _ => t

/-- Go `extractRootCause`: a non-verbose error is returned unchanged;
for a verbose error the scan runs over its output and, when a candidate
line was found, the title is set to that line; the output is untouched. -/
def extractRootCause : GoError → GoError
  | .simple m => .simple m
  | .verbose t o =>
    match extractCause o with
    | none => .verbose t o
    | some cause => .verbose (bytesToString cause) o

/-- A line matches some strong (non-weak) entry of the table. -/
def strongMatch (line : List Nat) : Bool :=
  buildFailureCauses.any fun p => !p.weak && containsB line p.pattern

/-- A line matches some entry of the table, weak or strong. -/
def anyMatch (line : List Nat) : Bool :=
  buildFailureCauses.any fun p => containsB line p.pattern

/-- A command as assembled by `osutil.Command` and subsequent field
assignments: binary, arguments, working directory and, when explicitly
set, the environment. Go leaves `Dir` empty and `Env` nil unless
assigned. -/
structure Cmd where
  bin : String
  args : List String
  dir : String := ""
  env : Option (List String) := none
deriving DecidableEq, Repr

/-- One observable side effect of the pipelines: a filesystem action, a
sandboxing call, or an external process invocation with its wall-clock
timeout in seconds. -/
inductive Effect where
  | writeFile (path : String) (data : List Nat)
  | sandboxChown (path : String)
  | sandbox (cmd : Cmd)
  | run (timeoutSec : Nat) (cmd : Cmd)
  | tempDirCreated (path : String)
  | tempDirFailed
  | writeExecFile (path : String) (data : String)
  | copyFile (src : String) (dst : String)
  | chmod (path : String) (mode : Nat)
  | removeAll (path : String)
deriving DecidableEq, Repr

/-- The timeouts, in seconds, of the external process invocations in a
trace, in order. -/
def runTimeouts (tr : List Effect) : List Nat :=
  tr.filterMap fun e =>
    match e with
    | .run t _ => some t
    | _ => none

/-- Predetermined outcomes of the external steps of `Build`: each field
is `some` an error exactly when that step fails. The two `osutil.Run`
steps may fail with a verbose error, the others with a plain one.
`numCPU` is `runtime.NumCPU()`. -/
structure BuildWorld where
  numCPU : Nat
  writeConfigErr : Option String
  chownErr : Option String
  sandboxOldconfigErr : Option String
  oldconfigErr : Option GoError
  sandboxCompileErr : Option String
  compileErr : Option GoError

/-- Go `Build(dir, compiler, config)`: write `.config`, chown it, then
run `make oldconfig` (10 min) and `make bzImage -j N` (3 h) sandboxed in
`dir`; only the compile failure goes through `extractRootCause`, the
config-write failure is wrapped with a fixed prefix, all other failures
are returned as-is. Returns the effect trace and the returned error. -/
def Build (w : BuildWorld) (dir compiler : String) (config : List Nat) :
    List Effect × Option GoError :=
  let configFile := dir ++ "/.config"
  let t0 := [Effect.writeFile configFile config]
  match w.writeConfigErr with
  | some e => (t0, some (.simple ("failed to write config file: " ++ e)))
  | none =>
  let t1 := t0 ++ [.sandboxChown configFile]
  match w.chownErr with
  | some e => (t1, some (.simple e))
  | none =>
  let cmd1 : Cmd := { bin := "make", args := ["oldconfig", "CC=" ++ compiler] }
  let t2 := t1 ++ [.sandbox cmd1]
  match w.sandboxOldconfigErr with
  | some e => (t2, some (.simple e))
  | none =>
  let t3 := t2 ++ [.run 600 { cmd1 with dir := dir }]
  match w.oldconfigErr with
  | some ge => (t3, some ge)
  | none =>
  let cmd2 : Cmd := { bin := "make",
                      args := ["bzImage", "-j", toString w.numCPU, "CC=" ++ compiler] }
  let t4 := t3 ++ [.sandbox cmd2]
  match w.sandboxCompileErr with
  | some e => (t4, some (.simple e))
  | none =>
  let t5 := t4 ++ [.run 10800 { cmd2 with dir := dir }]
  match w.compileErr with
  | some ge => (t5, some (extractRootCause ge))
  | none => (t5, none)

/-- Predetermined outcomes of the external steps of `Clean`. -/
structure CleanWorld where
  numCPU : Nat
  sandboxErr : Option String
  runErr : Option GoError

/-- Go `Clean(dir)`: run `make distclean -j N` sandboxed in `dir` under a
10-minute timeout and return the run's error, if any, unmodified. -/
def Clean (w : CleanWorld) (dir : String) : List Effect × Option GoError :=
  let cmd : Cmd := { bin := "make", args := ["distclean", "-j", toString w.numCPU] }
  let t0 := [Effect.sandbox cmd]
  match w.sandboxErr with
  | some e => (t0, some (.simple e))
  | none => (t0 ++ [.run 600 { cmd with dir := dir }], w.runErr)

/-- Modelled from the spec: `osutil.Abs` (outside `src/`) resolves a path
to an absolute path — abstracted as `resolve` since it depends on the
process working directory — and maps the empty path to the empty
string. -/
def Abs (resolve : String → String) (path : String) : String :=
  if path = "" then "" else resolve path

/-- Modelled from the spec: the embedded image-build script template of
`linux_generated.go` (auto-generated from `tools/create-gce-image.sh`,
not present under `src/`); its contents are irrelevant to the claims. -/
def createImageScript : String :=
  "#!/bin/bash"

/-- Predetermined outcomes of the external steps of `CreateImage`:
the caller's environment, the path-resolution oracle for `osutil.Abs`,
the temp-dir creation result, and each later step's failure, if any. -/
structure CreateImageWorld where
  environ : List String
  resolve : String → String
  tempDirResult : Except String String
  writeScriptErr : Option String
  runErr : Option GoError
  copyDiskErr : Option String
  copyKeyErr : Option String
  chmodErr : Option String

/-- The body of Go `CreateImage` after the staging directory `tempDir`
exists (the part whose exits are protected by `defer os.RemoveAll`):
write the embedded script into the staging directory; run it there for
up to an hour with arguments userspaceDir and the bzImage path and the
caller's environment plus the three SYZ variables; copy the produced
disk image and ssh key out and chmod the key to 0600. -/
def createImageSteps (w : CreateImageWorld)
    (vmType kernelDir userspaceDir cmdlineFile sysctlFile image sshkey
     tempDir : String) : List Effect × Option GoError :=
  let scriptFile := tempDir ++ "/create.sh"
  match w.writeScriptErr with
  | some e => ([.writeExecFile scriptFile createImageScript],
               some (.simple ("failed to write script file: " ++ e)))
  | none =>
    let bzImage := kernelDir ++ "/arch/x86/boot/bzImage"
    let cmd : Cmd := { bin := scriptFile, args := [userspaceDir, bzImage],
                       dir := tempDir,
                       env := some (w.environ ++
                         ["SYZ_VM_TYPE=" ++ vmType,
                          "SYZ_CMDLINE_FILE=" ++ Abs w.resolve cmdlineFile,
                          "SYZ_SYSCTL_FILE=" ++ Abs w.resolve sysctlFile]) }
    let t0 := [Effect.writeExecFile scriptFile createImageScript,
               .run 3600 cmd]
    match w.runErr with
    | some ge => (t0, some (.simple ("image build failed: " ++ ge.message)))
    | none =>
      let t1 := t0 ++ [.copyFile (tempDir ++ "/disk.raw") image]
      match w.copyDiskErr with
      | some e => (t1, some (.simple e))
      | none =>
        let t2 := t1 ++ [.copyFile (tempDir ++ "/key") sshkey]
        match w.copyKeyErr with
        | some e => (t2, some (.simple e))
        | none =>
          let t3 := t2 ++ [.chmod sshkey 0o600]
          match w.chmodErr with
          | some e => (t3, some (.simple e))
          | none => (t3, none)

/-- Go `CreateImage`: reject anything but linux/amd64 and qemu/gce with
a configuration error before any side effect; create a staging
directory, removed again on every later exit path; then perform the
assembly steps of `createImageSteps` inside it. -/
def CreateImage (w : CreateImageWorld)
    (targetOS targetArch vmType kernelDir userspaceDir cmdlineFile sysctlFile
     image sshkey : String) : List Effect × Option GoError :=
  if targetOS ≠ "linux" ∨ targetArch ≠ "amd64" then
    ([], some (.simple "only linux/amd64 is supported"))
  else if vmType ≠ "qemu" ∧ vmType ≠ "gce" then
    ([], some (.simple "images can be built only for qemu/gce machines"))
  else
    match w.tempDirResult with
    | .error e => ([.tempDirFailed], some (.simple e))
    | .ok tempDir =>
      let body := createImageSteps w vmType kernelDir userspaceDir
        cmdlineFile sysctlFile image sshkey tempDir
      (Effect.tempDirCreated tempDir :: body.1 ++ [.removeAll tempDir], body.2)

/-- A concrete world used to instantiate the `CreateImage` theorems: a
one-entry environment, a fixed path-resolution oracle, a fixed staging
directory, every step succeeding. -/
def sampleImageWorld : CreateImageWorld :=
  { environ := ["PATH=/bin"], resolve := fun s => "/abs/" ++ s,
    tempDirResult := .ok "/tmp/syz-build0", writeScriptErr := none,
    runErr := none, copyDiskErr := none, copyKeyErr := none,
    chmodErr := none }

/-- The inner loop returns the scanned line exactly when some applicable
table entry (strong, or weak while no candidate is set) is contained in
the line, and otherwise leaves the candidate unchanged. -/
theorem scanLine_eq (line : List Nat) (ps : List buildFailureCause) :
    ∀ cause, scanLine cause line ps =
      if ps.any (fun p => !(p.weak && cause.isSome) && containsB line p.pattern) then
        some line
      else cause := by
  induction ps with
  | nil => intro cause; simp [scanLine]
  | cons p ps ih =>
    intro cause
    simp only [scanLine, List.any_cons]
    by_cases h1 : (p.weak && cause.isSome) = true
    · rw [if_pos h1, ih cause]
      simp [h1]
    · have h1f : (p.weak && cause.isSome) = false := by
        cases hb : (p.weak && cause.isSome) with
        | false => rfl
        | true => exact absurd hb h1
      rw [if_neg h1]
      by_cases h2 : containsB line p.pattern = true
      · rw [if_pos h2]
        simp [h1f, h2]
      · have h2f : containsB line p.pattern = false := by
          cases hb : containsB line p.pattern with
          | false => rfl
          | true => exact absurd hb h2
        rw [if_neg h2, ih cause]
        simp [h1f, h2f]

/-- With a candidate already set, a line replaces it exactly when the
line matches a strong pattern. -/
theorem scanStep_some (c line : List Nat) :
    scanStep (some c) line = if strongMatch line then some line else some c := by
  rw [scanStep, scanLine_eq, strongMatch]
  simp

/-- With no candidate set, a line becomes the candidate exactly when it
matches any pattern, weak or strong. -/
theorem scanStep_none (line : List Nat) :
    scanStep none line = if anyMatch line then some line else none := by
  rw [scanStep, scanLine_eq, anyMatch]
  simp

/-- A strong match is in particular a match. -/
theorem strongMatch_anyMatch {l : List Nat} (h : strongMatch l = true) :
    anyMatch l = true := by
  rcases List.any_eq_true.mp h with ⟨p, hp, hcond⟩
  rw [Bool.and_eq_true] at hcond
  exact List.any_eq_true.mpr ⟨p, hp, hcond.2⟩

/-- Once a candidate is set, a run of lines without a strong match leaves
it in place. -/
theorem foldl_no_strong (ls : List (List Nat)) :
    ∀ c, (∀ l ∈ ls, strongMatch l = false) →
      List.foldl scanStep (some c) ls = some c := by
  induction ls with
  | nil => intro c _; rfl
  | cons l ls ih =>
    intro c h
    rw [List.foldl_cons, scanStep_some, if_neg]
    · exact ih c fun x hx => h x (List.mem_cons_of_mem l hx)
    · simp [h l (List.mem_cons_self l ls)]

/-- When some line matches a strong pattern, the scan ends on the last
strong-matching line, whatever candidate it started from. -/
theorem foldl_last_strong (ls : List (List Nat)) :
    ∀ cause, (∃ l ∈ ls, strongMatch l = true) →
      List.foldl scanStep cause ls =
        (ls.filter fun x => strongMatch x).getLast? := by
  induction ls with
  | nil => intro cause h; simp at h
  | cons l ls ih =>
    intro cause hex
    by_cases hs : strongMatch l = true
    · have step : scanStep cause l = some l := by
        cases cause with
        | none => rw [scanStep_none, if_pos (strongMatch_anyMatch hs)]
        | some c => rw [scanStep_some, if_pos hs]
      rw [List.foldl_cons, step, List.filter_cons_of_pos hs]
      by_cases hex2 : ∃ x ∈ ls, strongMatch x = true
      · rw [ih (some l) hex2]
        have hne : (ls.filter fun x => strongMatch x) ≠ [] := by
          rcases hex2 with ⟨x, hx, hxs⟩
          exact List.ne_nil_of_mem (List.mem_filter.mpr ⟨hx, hxs⟩)
        cases hf : ls.filter fun x => strongMatch x with
        | nil => exact absurd hf hne
        | cons y ys => rw [List.getLast?_cons_cons]
      · have hnone : ∀ x ∈ ls, strongMatch x = false := by
          intro x hx
          cases hb : strongMatch x with
          | false => rfl
          | true => exact absurd ⟨x, hx, hb⟩ hex2
        rw [foldl_no_strong ls l hnone]
        have hnil : (ls.filter fun x => strongMatch x) = [] :=
          List.filter_eq_nil_iff.mpr fun x hx => by simp [hnone x hx]
        rw [hnil]
        rfl
    · have hsf : strongMatch l = false := by
        cases hb : strongMatch l with
        | false => rfl
        | true => exact absurd hb hs
      have hex2 : ∃ x ∈ ls, strongMatch x = true := by
        rcases hex with ⟨x, hx, hxs⟩
        rcases List.mem_cons.mp hx with h | h
        · subst h; exact absurd hxs hs
        · exact ⟨x, h, hxs⟩
      rw [List.foldl_cons, ih (scanStep cause l) hex2, List.filter_cons_of_neg (by simp [hsf])]

/-- When no line matches a strong pattern, the scan from no candidate
ends on the first matching (necessarily weak-matching) line. -/
theorem foldl_none_weak (ls : List (List Nat))
    (h : ∀ l ∈ ls, strongMatch l = false) :
    List.foldl scanStep none ls = (ls.filter fun x => anyMatch x).head? := by
  induction ls with
  | nil => rfl
  | cons l ls ih =>
    have hl := h l (List.mem_cons_self l ls)
    have hrest : ∀ x ∈ ls, strongMatch x = false :=
      fun x hx => h x (List.mem_cons_of_mem l hx)
    by_cases ha : anyMatch l = true
    · rw [List.foldl_cons, scanStep_none, if_pos ha,
        foldl_no_strong ls l hrest, List.filter_cons_of_pos ha]
      rfl
    · rw [List.foldl_cons, scanStep_none, if_neg ha, ih hrest,
        List.filter_cons_of_neg ha]

/-- C1 counterexample: on the output "a.c:1: error: one\nb.c:2: error: two",
whose two lines BOTH match the strong pattern ": error: ", the extractor
returns the SECOND line, not the earliest one — a later strong match does
change an already-set candidate. -/
theorem extract_first_strong_cex :
    splitNL (strBytes "a.c:1: error: one\nb.c:2: error: two") =
      [strBytes "a.c:1: error: one", strBytes "b.c:2: error: two"] ∧
    strongMatch (strBytes "a.c:1: error: one") = true ∧
    strongMatch (strBytes "b.c:2: error: two") = true ∧
    extractCause (strBytes "a.c:1: error: one\nb.c:2: error: two") =
      some (strBytes "b.c:2: error: two") ∧
    strBytes "b.c:2: error: two" ≠ strBytes "a.c:1: error: one" := by
  decide

/-- C1 (amended): a strong-pattern match always sets the candidate, even
when one is already set, so the extracted title is the LAST line (in
original order) matching a strong pattern: whenever the strong-matching
lines of the output are non-empty, `extractCause` returns the last of
them, and `extractRootCause` sets the verbose error's title to it. -/
theorem extract_returns_last_strong (t : String) (o l : List Nat)
    (h : ((splitNL o).filter fun x => strongMatch x).getLast? = some l) :
    extractCause o = some l ∧
    extractRootCause (.verbose t o) = .verbose (bytesToString l) o := by
  have hex : ∃ x ∈ splitNL o, strongMatch x = true := by
    have hm := List.mem_of_getLast?_eq_some h
    have hmf := List.mem_filter.mp hm
    exact ⟨l, hmf.1, hmf.2⟩
  have h1 : extractCause o = some l := by
    rw [extractCause, foldl_last_strong (splitNL o) none hex, h]
  exact ⟨h1, by simp [extractRootCause, h1]⟩

/-- Witness for the amended C1 at a two-strong-line output. -/
theorem extract_returns_last_strong_witness :
    extractCause (strBytes "a.c:1: error: one\nb.c:2: error: two") =
      some (strBytes "b.c:2: error: two") ∧
    extractRootCause (.verbose "t" (strBytes "a.c:1: error: one\nb.c:2: error: two")) =
      .verbose (bytesToString (strBytes "b.c:2: error: two"))
        (strBytes "a.c:1: error: one\nb.c:2: error: two") :=
  extract_returns_last_strong "t" _ _ (by decide)

/-- C2: weak patterns are only a fallback. When some line of the output
matches a strong pattern, the extracted line itself matches a strong
pattern (never a line whose only match is weak); when no line matches a
strong pattern, the extractor returns the first matching line; and a
line without a strong match never replaces an already-set candidate. -/
theorem extract_weak_fallback :
    (∀ o l, (∃ x ∈ splitNL o, strongMatch x = true) →
        extractCause o = some l → strongMatch l = true) ∧
    (∀ o, (∀ x ∈ splitNL o, strongMatch x = false) →
        extractCause o = ((splitNL o).filter fun x => anyMatch x).head?) ∧
    (∀ c l, strongMatch l = false → scanStep (some c) l = some c) := by
  refine ⟨?_, ?_, ?_⟩
  · intro o l hex hsome
    rw [extractCause, foldl_last_strong (splitNL o) none hex] at hsome
    exact (List.mem_filter.mp (List.mem_of_getLast?_eq_some hsome)).2
  · intro o h
    rw [extractCause, foldl_none_weak (splitNL o) h]
  · intro c l h
    rw [scanStep_some, if_neg (by simp [h])]

/-- Witness for C2 on an output of two weak-only lines (note: a
"collect2: error: " line cannot serve here, since it also contains the
strong pattern ": error: "): the first weak-matching line is returned. -/
theorem extract_weak_fallback_witness :
    extractCause
        (strBytes "x.so: final link failed: oops\ny.so: final link failed: again") =
      ((splitNL (strBytes "x.so: final link failed: oops\ny.so: final link failed: again")).filter
          fun x => anyMatch x).head? ∧
    extractCause
        (strBytes "x.so: final link failed: oops\ny.so: final link failed: again") =
      some (strBytes "x.so: final link failed: oops") :=
  ⟨extract_weak_fallback.2.1 _ (by decide), by decide⟩

/-- C6: the diagnostic table is exactly the five entries in the stated
order — ": error: ", ": fatal error: ", ": undefined reference to"
strong, then ": final link failed: " and "collect2: error: " weak — and
within a single line the earliest applicable table entry that matches
takes effect: once an entry matches, the candidate becomes the line and
the rest of the table is not consulted (the result does not depend on
the remaining entries). -/
theorem causes_table_ordered :
    (buildFailureCauses.map (fun p => p.pattern) =
      [strBytes ": error: ", strBytes ": fatal error: ",
       strBytes ": undefined reference to", strBytes ": final link failed: ",
       strBytes "collect2: error: "] ∧
     buildFailureCauses.map (fun p => p.weak) = [false, false, false, true, true]) ∧
    (∀ cause line p ps, (p.weak && cause.isSome) = false →
        containsB line p.pattern = true →
        scanLine cause line (p :: ps) = some line) := by
  refine ⟨by decide, ?_⟩
  intro cause line p ps h1 h2
  simp [scanLine, h1, h2]

/-- Witness for C6: the first table entry matching a line settles the
scan regardless of the rest of the table. -/
theorem causes_table_ordered_witness :
    scanLine none (strBytes "a.c:1: error: x") [⟨strBytes ": error: ", false⟩] =
      some (strBytes "a.c:1: error: x") :=
  causes_table_ordered.2 none (strBytes "a.c:1: error: x")
    ⟨strBytes ": error: ", false⟩ [] (by decide) (by decide)

/-- C7: when no line of the captured output contains any of the five
patterns, no candidate is found and the verbose error is returned with
its title untouched. -/
theorem extract_no_match_unchanged (t : String) (o : List Nat)
    (h : ∀ x ∈ splitNL o, anyMatch x = false) :
    extractCause o = none ∧ extractRootCause (.verbose t o) = .verbose t o := by
  have hstrong : ∀ x ∈ splitNL o, strongMatch x = false := by
    intro x hx
    cases hb : strongMatch x with
    | false => rfl
    | true => exact absurd (strongMatch_anyMatch hb) (by simp [h x hx])
  have h1 : extractCause o = none := by
    rw [extractCause, foldl_none_weak (splitNL o) hstrong,
      List.filter_eq_nil_iff.mpr fun x hx => by simp [h x hx]]
    rfl
  exact ⟨h1, by simp [extractRootCause, h1]⟩

/-- Witness for C7 at a pattern-free output. -/
theorem extract_no_match_unchanged_witness :
    extractCause (strBytes "make: all targets built\nwarning: none") = none ∧
    extractRootCause (.verbose "kernel build failed"
        (strBytes "make: all targets built\nwarning: none")) =
      .verbose "kernel build failed" (strBytes "make: all targets built\nwarning: none") :=
  extract_no_match_unchanged "kernel build failed" _ (by decide)

/-- C10: `extractRootCause` only ever touches the title: the captured
output is preserved in every case, a non-verbose error is returned
completely unchanged, and a verbose error comes back as a verbose error
with the same output. -/
theorem extractRootCause_frame :
    (∀ e, (extractRootCause e).outputOf = e.outputOf) ∧
    (∀ m, extractRootCause (.simple m) = .simple m) ∧
    (∀ t o, ∃ t2, extractRootCause (.verbose t o) = .verbose t2 o) := by
  refine ⟨?_, fun m => rfl, ?_⟩
  · intro e
    cases e with
    | simple m => rfl
    | verbose t o =>
      simp only [extractRootCause]
      cases extractCause o <;> rfl
  · intro t o
    simp only [extractRootCause]
    cases hc : extractCause o with
    | none => exact ⟨t, rfl⟩
    | some c => exact ⟨bytesToString c, rfl⟩

/-- C3: `CreateImage` rejects any target other than linux/amd64, and any
VM kind other than qemu or gce, with the corresponding configuration
error, performing no side effect at all (empty effect trace: no staging
directory, no process). -/
theorem createImage_rejects_invalid (w : CreateImageWorld)
    (targetOS targetArch vmType kernelDir userspaceDir cmdlineFile sysctlFile
     image sshkey : String) :
    (targetOS ≠ "linux" ∨ targetArch ≠ "amd64" →
      CreateImage w targetOS targetArch vmType kernelDir userspaceDir
          cmdlineFile sysctlFile image sshkey =
        ([], some (.simple "only linux/amd64 is supported"))) ∧
    (vmType ≠ "qemu" → vmType ≠ "gce" →
      CreateImage w "linux" "amd64" vmType kernelDir userspaceDir
          cmdlineFile sysctlFile image sshkey =
        ([], some (.simple "images can be built only for qemu/gce machines"))) := by
  constructor
  · intro h
    rw [CreateImage, if_pos h]
  · intro h1 h2
    rw [CreateImage, if_neg (by simp), if_pos ⟨h1, h2⟩]

/-- Witness for C3: a windows target and a bad VM kind are both turned
away with no effects. -/
theorem createImage_rejects_invalid_witness :
    CreateImage sampleImageWorld "windows" "amd64" "qemu" "/kernel" "/userspace"
        "" "" "/out/image" "/out/key" =
      ([], some (.simple "only linux/amd64 is supported")) ∧
    CreateImage sampleImageWorld "linux" "amd64" "kvm" "/kernel" "/userspace"
        "" "" "/out/image" "/out/key" =
      ([], some (.simple "images can be built only for qemu/gce machines")) :=
  ⟨(createImage_rejects_invalid sampleImageWorld "windows" "amd64" "qemu" "/kernel"
      "/userspace" "" "" "/out/image" "/out/key").1 (by simp),
   (createImage_rejects_invalid sampleImageWorld "linux" "amd64" "kvm" "/kernel"
      "/userspace" "" "" "/out/image" "/out/key").2 (by simp) (by simp)⟩

/-- C4: on every exit path of `CreateImage` taken after the staging
directory was created — whatever the outcomes of the script run, the
artifact copies and the chmod — the trace both records the creation of
the staging directory and its removal. -/
theorem createImage_staging_removed (w : CreateImageWorld)
    (vmType kernelDir userspaceDir cmdlineFile sysctlFile image sshkey
     td : String)
    (hVM : vmType = "qemu" ∨ vmType = "gce")
    (hTD : w.tempDirResult = .ok td) :
    Effect.tempDirCreated td ∈ (CreateImage w "linux" "amd64" vmType kernelDir
        userspaceDir cmdlineFile sysctlFile image sshkey).1 ∧
    Effect.removeAll td ∈ (CreateImage w "linux" "amd64" vmType kernelDir
        userspaceDir cmdlineFile sysctlFile image sshkey).1 := by
  have hg2 : ¬(vmType ≠ "qemu" ∧ vmType ≠ "gce") := by
    rcases hVM with h | h <;> simp [h]
  rw [CreateImage, if_neg (by simp), if_neg hg2, hTD]
  constructor
  · exact List.mem_cons_self _ _
  · exact List.mem_cons_of_mem _ (List.mem_append_right _ (List.mem_singleton.mpr rfl))

/-- Witness for C4 with a failing copy step: the staging directory is
still created and removed. -/
theorem createImage_staging_removed_witness :
    Effect.tempDirCreated "/tmp/syz-build0" ∈
      (CreateImage { sampleImageWorld with copyDiskErr := some "no space" }
        "linux" "amd64" "gce" "/kernel" "/userspace" "" "" "/out/image" "/out/key").1 ∧
    Effect.removeAll "/tmp/syz-build0" ∈
      (CreateImage { sampleImageWorld with copyDiskErr := some "no space" }
        "linux" "amd64" "gce" "/kernel" "/userspace" "" "" "/out/image" "/out/key").1 :=
  createImage_staging_removed _ "gce" "/kernel" "/userspace" "" "" "/out/image"
    "/out/key" "/tmp/syz-build0" (Or.inr rfl) rfl

/-- C5 counterexample: a config-write failure is NOT returned as-is; the
code wraps it in a new error with the fixed prefix "failed to write
config file: ", so the returned error differs from the raw one. -/
theorem build_writeconfig_wrapped_cex :
    (Build ⟨1, some "disk full", none, none, none, none, none⟩ "/kernel" "gcc" []).2 =
      some (.simple "failed to write config file: disk full") ∧
    (Build ⟨1, some "disk full", none, none, none, none, none⟩ "/kernel" "gcc" []).2 ≠
      some (.simple "disk full") := by
  decide

/-- C5 (amended): only the Compile step's failure is routed through
`extractRootCause`; the defaults-resolution (oldconfig) failure is
returned as-is; the config-write failure is returned wrapped with the
fixed "failed to write config file: " prefix (still never diagnosed);
and `Clean` returns its run's raw error unmodified. -/
theorem build_error_routing :
    (∀ w dir compiler config e, w.writeConfigErr = some e →
        (Build w dir compiler config).2 =
          some (.simple ("failed to write config file: " ++ e))) ∧
    (∀ w dir compiler config ge, w.writeConfigErr = none → w.chownErr = none →
        w.sandboxOldconfigErr = none → w.oldconfigErr = some ge →
        (Build w dir compiler config).2 = some ge) ∧
    (∀ w dir compiler config ge, w.writeConfigErr = none → w.chownErr = none →
        w.sandboxOldconfigErr = none → w.oldconfigErr = none →
        w.sandboxCompileErr = none → w.compileErr = some ge →
        (Build w dir compiler config).2 = some (extractRootCause ge)) ∧
    (∀ w dir, w.sandboxErr = none → (Clean w dir).2 = w.runErr) := by
  refine ⟨?_, ?_, ?_, ?_⟩
  · intro w dir compiler config e h1
    simp [Build, h1]
  · intro w dir compiler config ge h1 h2 h3 h4
    simp [Build, h1, h2, h3, h4]
  · intro w dir compiler config ge h1 h2 h3 h4 h5 h6
    simp [Build, h1, h2, h3, h4, h5, h6]
  · intro w dir h1
    simp [Clean, h1]

/-- Witness for the amended C5: a verbose compile failure comes back
through the extractor (title set to its error line), while an oldconfig
failure and a clean failure come back untouched. -/
theorem build_error_routing_witness :
    (Build ⟨2, none, none, none, none, none,
        some (.verbose "kernel build failed" (strBytes "a.c:1: error: x"))⟩
      "/kernel" "gcc" []).2 =
      some (extractRootCause (.verbose "kernel build failed" (strBytes "a.c:1: error: x"))) ∧
    (Build ⟨2, none, none, none, some (.simple "oldconfig failed"), none, none⟩
      "/kernel" "gcc" []).2 = some (.simple "oldconfig failed") ∧
    (Clean ⟨2, none, some (.verbose "clean failed" (strBytes "b.c:2: error: y"))⟩
      "/kernel").2 = some (.verbose "clean failed" (strBytes "b.c:2: error: y")) :=
  ⟨build_error_routing.2.2.1 _ "/kernel" "gcc" [] _ rfl rfl rfl rfl rfl rfl,
   build_error_routing.2.1 _ "/kernel" "gcc" [] _ rfl rfl rfl rfl,
   build_error_routing.2.2.2 _ "/kernel" rfl⟩

/-- C8: on the path where the staging directory `td` and the script were
set up, `CreateImage` invokes the materialized script with working
directory `td`, positional arguments userspaceDir and the kernel image
path `kernelDir/arch/x86/boot/bzImage`, and environment equal to the
caller's full environment plus exactly SYZ_VM_TYPE, SYZ_CMDLINE_FILE and
SYZ_SYSCTL_FILE, the two file values resolved through `Abs`, which maps
an absent (empty) file to the empty string. -/
theorem createImage_script_invocation (w : CreateImageWorld)
    (vmType kernelDir userspaceDir cmdlineFile sysctlFile image sshkey
     td : String)
    (hVM : vmType = "qemu" ∨ vmType = "gce")
    (hTD : w.tempDirResult = .ok td)
    (hWS : w.writeScriptErr = none) :
    Effect.run 3600
        { bin := td ++ "/create.sh",
          args := [userspaceDir, kernelDir ++ "/arch/x86/boot/bzImage"],
          dir := td,
          env := some (w.environ ++
            ["SYZ_VM_TYPE=" ++ vmType,
             "SYZ_CMDLINE_FILE=" ++ Abs w.resolve cmdlineFile,
             "SYZ_SYSCTL_FILE=" ++ Abs w.resolve sysctlFile]) } ∈
      (CreateImage w "linux" "amd64" vmType kernelDir userspaceDir cmdlineFile
          sysctlFile image sshkey).1 ∧
    Abs w.resolve "" = "" := by
  have hg2 : ¬(vmType ≠ "qemu" ∧ vmType ≠ "gce") := by
    rcases hVM with h | h <;> simp [h]
  rw [CreateImage, if_neg (by simp), if_neg hg2, hTD]
  refine ⟨?_, rfl⟩
  apply List.mem_cons_of_mem
  apply List.mem_append_left
  cases hr : w.runErr <;>
    cases hc1 : w.copyDiskErr <;>
    cases hc2 : w.copyKeyErr <;>
    cases hc3 : w.chmodErr <;>
    simp [createImageSteps, hWS, hr, hc1, hc2, hc3]

/-- Witness for C8 at the sample world with no optional files: the run
effect with the empty-string file variables is in the trace. -/
theorem createImage_script_invocation_witness :
    Effect.run 3600
        { bin := "/tmp/syz-build0/create.sh",
          args := ["/userspace", "/kernel/arch/x86/boot/bzImage"],
          dir := "/tmp/syz-build0",
          env := some (sampleImageWorld.environ ++
            ["SYZ_VM_TYPE=" ++ "qemu",
             "SYZ_CMDLINE_FILE=" ++ Abs sampleImageWorld.resolve "",
             "SYZ_SYSCTL_FILE=" ++ Abs sampleImageWorld.resolve ""]) } ∈
      (CreateImage sampleImageWorld "linux" "amd64" "qemu" "/kernel" "/userspace"
          "" "" "/out/image" "/out/key").1 ∧
    Abs sampleImageWorld.resolve "" = "" :=
  createImage_script_invocation sampleImageWorld "qemu" "/kernel" "/userspace"
    "" "" "/out/image" "/out/key" "/tmp/syz-build0" (Or.inl rfl) rfl rfl

/-- C9: every external process invocation carries its step's finite
timeout, in seconds: the runs of `Build` are, in order, the oldconfig
step at 600 s (10 min) and the compile step at 10800 s (3 h); the single
run of `Clean` is at 600 s; the single run of `CreateImage` is at 3600 s
(1 h) — on every path, the timeout list is a prefix of the full one. -/
theorem step_timeouts :
    (∀ w dir compiler config, ∃ rest,
        runTimeouts (Build w dir compiler config).1 ++ rest = [600, 10800]) ∧
    (∀ w dir, ∃ rest, runTimeouts (Clean w dir).1 ++ rest = [600]) ∧
    (∀ w targetOS targetArch vmType kernelDir userspaceDir cmdlineFile
        sysctlFile image sshkey, ∃ rest,
        runTimeouts (CreateImage w targetOS targetArch vmType kernelDir
            userspaceDir cmdlineFile sysctlFile image sshkey).1 ++ rest = [3600]) := by
  refine ⟨?_, ?_, ?_⟩
  · intro w dir compiler config
    rcases w with ⟨n, wc, ch, s1, oc, s2, ce⟩
    cases wc <;> cases ch <;> cases s1 <;> cases oc <;> cases s2 <;> cases ce <;>
      exact ⟨_, rfl⟩
  · intro w dir
    rcases w with ⟨n, se, re⟩
    cases se <;> exact ⟨_, rfl⟩
  · intro w targetOS targetArch vmType kernelDir userspaceDir cmdlineFile
      sysctlFile image sshkey
    by_cases hg1 : targetOS ≠ "linux" ∨ targetArch ≠ "amd64"
    · refine ⟨[3600], ?_⟩
      rw [CreateImage, if_pos hg1]
      rfl
    · by_cases hg2 : vmType ≠ "qemu" ∧ vmType ≠ "gce"
      · refine ⟨[3600], ?_⟩
        rw [CreateImage, if_neg hg1, if_pos hg2]
        rfl
      · rcases w with ⟨env, res, td, ws, re, c1, c2, ce⟩
        rw [CreateImage, if_neg hg1, if_neg hg2]
        cases td <;> cases ws <;> cases re <;> cases c1 <;> cases c2 <;> cases ce <;>
          exact ⟨_, rfl⟩
